import Mathlib

/-!
Verification of the employee-sync-system change-capture core.

The development shallowly embeds the three core operations of the repository:

* the change-capture triggers of scripts/init_hr_db.py (employee_update_trigger),
* the batch extractor of hr_mcp_server.py (detect_changes, create_sync_payload),
* the batch applier of payroll_agent.py (process_sync_payload).

Modelling conventions:

* SQLite cells are dynamically typed; a cell is a `Val` (text, integer, or NULL).
  Timestamps are modelled as natural numbers; each operation receives the current
  clock value as an explicit `now` argument standing for datetime.now().
* JSON objects (the old_values / new_values snapshots of a change row and the
  current_employee_data block of a payload entry) are association lists
  `List (String × Val)`; a Python dict access d[k] is `List.lookup`, and a
  missing key (Python KeyError) is an `Except.error`.
* A database connection that raises before `commit` leaves the database as it
  was (SQLite rolls the open transaction back when the connection is dropped);
  the embedding therefore returns the unchanged state on every error path that
  precedes the commit.
* The SQL `ORDER BY change_timestamp ASC` of the extractor query is modelled as
  a stable insertion sort over the table scanned in rowid order (rowid equals
  the AUTOINCREMENT id column), matching the deterministic behaviour of the
  engine on this query.
* SQL comparison semantics are kept: `x != y` is NULL when either operand is
  NULL (three-valued logic in the trigger WHEN clause), and a WHERE equality
  never matches a NULL operand (`sqlEq`).
-/

/-- A dynamically typed SQLite value: TEXT, INTEGER/REAL (as an integer), or NULL. -/
inductive Val where
  | str (s : String)
  | int (i : Int)
  | null
deriving DecidableEq, Repr

/-- A JSON object / row snapshot: finite map from field names to values. -/
abbrev Dict := List (String × Val)

/-- Python dict access d[k]: `some v` when present, `none` = KeyError. -/
def dictGet (d : Dict) (k : String) : Option Val :=
  d.lookup k

/-- Python str() of a value, as used by f-string interpolation in the applier. -/
def valToString : Val → String
  | .str s => s
  | .int i => toString i
  | .null => "None"

/-- SQL equality used by WHERE clauses: NULL compares false against everything. -/
def sqlEq : Val → Val → Bool
  | .null, _ => false
  | _, .null => false
  | a, b => a == b

/-- A row of the source `employees` table (scripts/init_hr_db.py):
first_name, last_name, email are declared NOT NULL; department, position,
salary and status are nullable. -/
structure EmployeeRow where
  employee_id : String
  first_name : String
  last_name : String
  email : String
  department : Option String
  position : Option String
  salary : Option Int
  status : Option String
deriving DecidableEq, Repr

/-- A row of the `employee_change_log` table: AUTOINCREMENT id, the change
descriptor, and the single mutable `processed` flag. old_values / new_values
hold the already-parsed JSON snapshots (the server parses the stored TEXT with
json.loads right after reading). -/
structure ChangeLogRow where
  id : Nat
  employee_id : String
  change_type : String
  old_values : Dict
  new_values : Dict
  change_timestamp : Nat
  processed : Bool
deriving DecidableEq, Repr

/-- The HR (source) database state: the employees table and the change log,
each as a list of rows in rowid order. -/
structure HRState where
  employees : List EmployeeRow
  changeLog : List ChangeLogRow
deriving DecidableEq, Repr

/-- One entry of the payload changes list, as built by create_sync_payload:
the change-log columns joined with the current employee snapshot. -/
structure PayloadChange where
  log_id : Nat
  employee_id : String
  change_type : String
  old_values : Dict
  new_values : Dict
  change_timestamp : Nat
  current_employee_data : Dict
deriving DecidableEq, Repr

/-- The `metadata` block of a sync payload. -/
structure Metadata where
  generated_by : String
  sync_id : String
  status : String
  processed_timestamp : Option Nat := none
  processed_by : Option String := none
deriving DecidableEq, Repr

/-- The sync payload written to data/sync_payload.json. -/
structure Payload where
  source_system : String
  target_system : String
  sync_timestamp : Nat
  total_changes : Nat
  changes : List PayloadChange
  metadata : Metadata
deriving DecidableEq, Repr

/-- Wrap a nullable TEXT column into a value. -/
def ovs : Option String → Val
  | some s => .str s
  | none => .null

/-- Wrap a nullable numeric column into a value. -/
def ovi : Option Int → Val
  | some i => .int i
  | none => .null

/-- The current_employee_data block of one payload entry: the seven employee
columns of the LEFT JOIN, all NULL when the employee row no longer exists. -/
def currentData : Option EmployeeRow → Dict
  | some e =>
      [("first_name", .str e.first_name), ("last_name", .str e.last_name),
       ("email", .str e.email), ("department", ovs e.department),
       ("position", ovs e.position), ("salary", ovi e.salary),
       ("status", ovs e.status)]
  | none =>
      [("first_name", .null), ("last_name", .null), ("email", .null),
       ("department", .null), ("position", .null), ("salary", .null),
       ("status", .null)]

/-- One result row of the extractor query: change-log columns LEFT JOINed with
the current employees row on employee_id. -/
def joinRow (emps : List EmployeeRow) (r : ChangeLogRow) : PayloadChange :=
  { log_id := r.id
    employee_id := r.employee_id
    change_type := r.change_type
    old_values := r.old_values
    new_values := r.new_values
    change_timestamp := r.change_timestamp
    current_employee_data := currentData (emps.find? (fun e => e.employee_id == r.employee_id)) }

/-- Insertion step of the stable sort on change_timestamp. -/
def insertByTs (a : PayloadChange) : List PayloadChange → List PayloadChange
  | [] => [a]
  | b :: l => if a.change_timestamp ≤ b.change_timestamp then a :: b :: l else b :: insertByTs a l

/-- Stable sort by change_timestamp ascending, the embedding of
`ORDER BY cl.change_timestamp ASC` over the table in rowid order. -/
def sortByTs : List PayloadChange → List PayloadChange
  | [] => []
  | a :: l => insertByTs a (sortByTs l)

/-- The shared SELECT of detect_changes and create_sync_payload: all change-log
rows with processed = FALSE, joined with the current employee data, ordered by
change_timestamp ascending. -/
def selectUnprocessed (db : HRState) : List PayloadChange :=
  sortByTs ((db.changeLog.filter (fun r => !r.processed)).map (joinRow db.employees))

/-- Result of the detect_changes tool (the success dictionary). -/
structure DetectResult where
  changes_count : Nat
  changes : List PayloadChange
  timestamp : Nat
deriving DecidableEq, Repr

/-- Tool 1 of hr_mcp_server.py: report unprocessed changes. The operation only
issues the SELECT and closes the connection, so the database state and the
payload file come back unchanged. -/
def detect_changes (now : Nat) (db : HRState) (store : Option Payload) :
    DetectResult × HRState × Option Payload :=
  let changes := selectUnprocessed db
  ({ changes_count := changes.length, changes := changes, timestamp := now }, db, store)

/-- Result of the create_sync_payload tool: success with the number of changes
processed (and the sync id when a payload was written), or an error. -/
inductive ExtractResult where
  | ok (changes_processed : Nat) (sync_id : Option String)
  | err (msg : String)
deriving DecidableEq, Repr

/-- The payload object built by create_sync_payload from the selected changes. -/
def builtPayload (now : Nat) (db : HRState) : Payload :=
  let changes := selectUnprocessed db
  { source_system := "hr_system"
    target_system := "payroll_system"
    sync_timestamp := now
    total_changes := changes.length
    changes := changes
    metadata :=
      { generated_by := "HR Change Detection System"
        sync_id := "SYNC_" ++ toString now
        status := "ready_for_sync" } }

/-- Mark the change-log rows whose id occurs in ids as processed
(the UPDATE employee_change_log SET processed = TRUE WHERE id IN (...)). -/
def markProcessed (ids : List Nat) (log : List ChangeLogRow) : List ChangeLogRow :=
  log.map (fun r => if r.id ∈ ids then { r with processed := true } else r)

/-- Tool 2 of hr_mcp_server.py: extract all unprocessed changes into a payload
file and flag them processed. `commitOk` is the failure-injection point for the
flag UPDATE and its commit (lines 181-187 of the source): when it is false, the
raised exception is caught and returned as an error; the connection is dropped
without commit, so the flag update rolls back, while the payload file - written
before the update - keeps its new content. -/
def create_sync_payload (now : Nat) (commitOk : Bool) (db : HRState) (store : Option Payload) :
    ExtractResult × HRState × Option Payload :=
  let changes := selectUnprocessed db
  if changes.isEmpty then
    (.ok 0 none, db, store)
  else
    let payload := builtPayload now db
    let store' := some payload
    if commitOk then
      let db' : HRState :=
        { db with changeLog := markProcessed (changes.map (·.log_id)) db.changeLog }
      (.ok changes.length (some payload.metadata.sync_id), db', store')
    else
      (.err "commit failed", db, store')

/-- A row of the target `payroll_employees` table (scripts/init_payroll_db.py).
Cells are dynamically typed values; full_name and email carry NOT NULL
constraints, employee_id is the TEXT primary key and email is UNIQUE. -/
structure PayrollRow where
  employee_id : Val
  full_name : Val
  email : Val
  department : Val
  position : Val
  base_salary : Val
  pay_grade : Val
  tax_status : Val
  last_sync_timestamp : Val
  created_at : Val
  updated_at : Val
deriving DecidableEq, Repr

/-- A row of the append-only `sync_log` audit table. source_data holds the
serialized change (json.dumps round-trips, so the change itself is kept). -/
structure SyncLogRow where
  employee_id : String
  sync_type : String
  source_data : PayloadChange
  sync_status : String
  error_message : Option String
  sync_timestamp : Nat
deriving DecidableEq, Repr

/-- The payroll (target) database state. -/
structure PayrollState where
  payroll_employees : List PayrollRow
  sync_log : List SyncLogRow
deriving DecidableEq, Repr

/-- Dict access that raises KeyError on a missing key, as an Except. -/
def getKey (d : Dict) (k : String) : Except String Val :=
  match dictGet d k with
  | some v => .ok v
  | none => .error ("KeyError: " ++ k)

/-- INSERT OR REPLACE into payroll_employees: rows conflicting with the new row
on the primary key (employee_id) or the UNIQUE email column are deleted, then
the new row is appended (SQLite REPLACE conflict resolution; NULLs never
conflict). -/
def insertOrReplace (rows : List PayrollRow) (rnew : PayrollRow) : List PayrollRow :=
  rows.filter (fun r => !(sqlEq r.employee_id rnew.employee_id || sqlEq r.email rnew.email))
    ++ [rnew]

/-- Per-row effect of the applier UPDATE statement for an UPDATE change. -/
def updateApply (now : Nat) (eid : String) (full_name : String)
    (email department position salary status : Val) (r : PayrollRow) : PayrollRow :=
  if sqlEq r.employee_id (.str eid) then
    { r with full_name := .str full_name, email := email, department := department,
             position := position, base_salary := salary, tax_status := status,
             last_sync_timestamp := .int now }
  else r

/-- Per-row effect of the applier UPDATE statement for a DELETE change:
tax_status becomes inactive, last_sync_timestamp is refreshed, nothing else. -/
def deleteApply (now : Nat) (eid : String) (r : PayrollRow) : PayrollRow :=
  if sqlEq r.employee_id (.str eid) then
    { r with tax_status := .str "inactive", last_sync_timestamp := .int now }
  else r

/-- Check of the UNIQUE constraint on payroll_employees.email while executing
the applier UPDATE statement: the statement updates every row matched on
employee_id to the same new email, and SQLite raises IntegrityError when a
matched row would receive a non-NULL email already held by another row - an
unmatched row that carries that email, or a second matched row (all matched
rows receive the same value). No matched row means no write and no possible
violation; `sqlEq` keeps NULLs from ever conflicting. -/
def emailConflict (eid : String) (email : Val) (rows : List PayrollRow) : Bool :=
  rows.any (fun r => sqlEq r.employee_id (.str eid)) &&
    (rows.any (fun r => !sqlEq r.employee_id (.str eid) && sqlEq r.email email)
     || decide (2 ≤ rows.countP (fun r => sqlEq r.employee_id (.str eid))))

/-- Apply one payload change to the payroll_employees rows, following the
if/elif chain of process_sync_payload (payroll_agent.py lines 80-127). Dict
accesses occur in Python evaluation order; a missing key raises KeyError, a
NULL in a NOT NULL column raises an IntegrityError, and an UPDATE that would
duplicate the UNIQUE email column raises an IntegrityError - each surfaces as
an Except.error that aborts the whole tool call. (The INSERT branch uses
INSERT OR REPLACE, whose REPLACE resolution deletes conflicting rows instead
of raising.) A change_type outside INSERT/UPDATE/DELETE matches no branch and
writes nothing. -/
def applyChange (now : Nat) (c : PayloadChange) (rows : List PayrollRow) :
    Except String (List PayrollRow) :=
  if c.change_type == "INSERT" then do
    let first ← getKey c.new_values "first_name"
    let last ← getKey c.new_values "last_name"
    let full_name := valToString first ++ " " ++ valToString last
    let eid ← getKey c.new_values "employee_id"
    let email ← getKey c.new_values "email"
    let department ← getKey c.new_values "department"
    let position ← getKey c.new_values "position"
    let salary ← getKey c.new_values "salary"
    let status ← getKey c.new_values "status"
    if email == Val.null then
      .error "NOT NULL constraint failed: payroll_employees.email"
    else
      .ok (insertOrReplace rows
        { employee_id := eid, full_name := .str full_name, email := email,
          department := department, position := position, base_salary := salary,
          pay_grade := .null, tax_status := status, last_sync_timestamp := .int now,
          created_at := .int now, updated_at := .int now })
  else if c.change_type == "UPDATE" then do
    let first ← getKey c.new_values "first_name"
    let last ← getKey c.new_values "last_name"
    let full_name := valToString first ++ " " ++ valToString last
    let email ← getKey c.new_values "email"
    let department ← getKey c.new_values "department"
    let position ← getKey c.new_values "position"
    let salary ← getKey c.new_values "salary"
    let status ← getKey c.new_values "status"
    if email == Val.null && rows.any (fun r => sqlEq r.employee_id (.str c.employee_id)) then
      .error "NOT NULL constraint failed: payroll_employees.email"
    else if emailConflict c.employee_id email rows then
      .error "UNIQUE constraint failed: payroll_employees.email"
    else
      .ok (rows.map (updateApply now c.employee_id full_name email department position salary status))
  else if c.change_type == "DELETE" then
    .ok (rows.map (deleteApply now c.employee_id))
  else
    .ok rows

/-- The applier loop over payload.changes: threads the processed_count counter
(incremented once per change, after any branch of the if/elif chain) and the
payroll rows; the first per-change exception aborts the whole loop. -/
def applyChanges (now : Nat) : List PayloadChange → Nat → List PayrollRow →
    Except String (Nat × List PayrollRow)
  | [], n, rows => .ok (n, rows)
  | c :: cs, n, rows => do
      let rows' ← applyChange now c rows
      applyChanges now cs (n + 1) rows'

/-- The audit row appended for one change by the logging loop
(payroll_agent.py lines 131-140): sync_status is always completed. -/
def syncEntry (now : Nat) (c : PayloadChange) : SyncLogRow :=
  { employee_id := c.employee_id
    sync_type := "HR_" ++ c.change_type
    source_data := c
    sync_status := "completed"
    error_message := none
    sync_timestamp := now }

/-- The completion annotation written back into the payload file after the
commit: status processed, processed_timestamp, processed_by. -/
def annotatePayload (now : Nat) (p : Payload) : Payload :=
  { p with metadata :=
      { p.metadata with status := "processed", processed_timestamp := some now,
                        processed_by := some "Payroll System Agent" } }

/-- Outcome of the process_sync_payload tool: no payload file, an error string
(the caught exception), or completion with the processed_count. -/
inductive ApplyOutcome where
  | noPayload
  | failed (msg : String)
  | completed (processed_count : Nat)
deriving DecidableEq, Repr

/-- The process_sync_payload tool of payroll_agent.py: read the payload file,
apply every change, append one completed sync_log row per change, commit, then
annotate the payload file. Any exception before the commit leaves both the
payroll database and the payload file untouched (connection dropped without
commit) and is returned as the failed outcome. -/
def process_sync_payload (now : Nat) (store : Option Payload) (st : PayrollState) :
    ApplyOutcome × Option Payload × PayrollState :=
  match store with
  | none => (.noPayload, store, st)
  | some p =>
    match applyChanges now p.changes 0 st.payroll_employees with
    | .error e => (.failed e, some p, st)
    | .ok (n, rows') =>
        (.completed n, some (annotatePayload now p),
         { payroll_employees := rows'
           sync_log := st.sync_log ++ p.changes.map (syncEntry now) })

/-- SQL three-valued inequality on NOT NULL TEXT columns: both operands are
always present, so the comparison is a plain boolean. -/
def neqS (a b : String) : Option Bool :=
  some (decide (a ≠ b))

/-- SQL three-valued inequality on a nullable column: NULL when either operand
is NULL, otherwise the boolean comparison. -/
def neq3 {α : Type} [DecidableEq α] : Option α → Option α → Option Bool
  | some x, some y => some (decide (x ≠ y))
  | _, _ => none

/-- SQL three-valued OR: true dominates, otherwise NULL dominates false. -/
def or3 : Option Bool → Option Bool → Option Bool
  | some true, _ => some true
  | _, some true => some true
  | none, _ => none
  | _, none => none
  | some false, some false => some false

/-- The WHEN clause of employee_update_trigger (scripts/init_hr_db.py lines
53-61): the left-associated OR chain of the seven tracked-column comparisons,
under SQL three-valued logic. The trigger body runs only when this evaluates
to true. -/
def whenClause (o n : EmployeeRow) : Option Bool :=
  or3 (or3 (or3 (or3 (or3 (or3
    (neqS o.first_name n.first_name)
    (neqS o.last_name n.last_name))
    (neqS o.email n.email))
    (neq3 o.department n.department))
    (neq3 o.position n.position))
    (neq3 o.salary n.salary))
    (neq3 o.status n.status)

/-- Next AUTOINCREMENT id for the change log. -/
def nextLogId (log : List ChangeLogRow) : Nat :=
  (log.foldr (fun r m => max r.id m) 0) + 1

/-- The json_object snapshot of the seven tracked columns, as built by the
trigger bodies. -/
def snapshotDict (e : EmployeeRow) : Dict :=
  [("first_name", .str e.first_name), ("last_name", .str e.last_name),
   ("email", .str e.email), ("department", ovs e.department),
   ("position", ovs e.position), ("salary", ovi e.salary),
   ("status", ovs e.status)]

/-- An UPDATE of one employees row from o to n: the row is replaced, and
employee_update_trigger appends one UPDATE change event exactly when its WHEN
clause evaluates to true. -/
def update_employee (now : Nat) (o n : EmployeeRow) (db : HRState) : HRState :=
  { employees := db.employees.map (fun r => if r.employee_id = o.employee_id then n else r)
    changeLog :=
      if whenClause o n = some true then
        db.changeLog ++
          [{ id := nextLogId db.changeLog
             employee_id := n.employee_id
             change_type := "UPDATE"
             old_values := snapshotDict o
             new_values := snapshotDict n
             change_timestamp := now
             processed := false }]
      else db.changeLog }

/-- Both operands present and different: the condition under which one
tracked-column comparison of the WHEN clause is true. -/
def bothSomeNe {α : Type} (a b : Option α) : Prop :=
  match a, b with
  | some x, some y => x ≠ y
  | _, _ => False

/-- Lexicographic order (change_timestamp, then log_id) on payload entries. -/
def lexLE (a b : PayloadChange) : Prop :=
  a.change_timestamp < b.change_timestamp ∨
    (a.change_timestamp = b.change_timestamp ∧ a.log_id ≤ b.log_id)

theorem joinRow_log_id (emps : List EmployeeRow) (r : ChangeLogRow) :
    (joinRow emps r).log_id = r.id := rfl

theorem insertByTs_perm (a : PayloadChange) (l : List PayloadChange) :
    List.Perm (insertByTs a l) (a :: l) := by
  induction l with
  | nil => exact List.Perm.refl _
  | cons b l ih =>
      by_cases h : a.change_timestamp ≤ b.change_timestamp
      · simp only [insertByTs, if_pos h]
        exact List.Perm.refl _
      · simp only [insertByTs, if_neg h]
        exact (ih.cons b).trans (List.Perm.swap a b l)

theorem sortByTs_perm (l : List PayloadChange) : List.Perm (sortByTs l) l := by
  induction l with
  | nil => exact List.Perm.refl _
  | cons a l ih =>
      exact (insertByTs_perm a (sortByTs l)).trans (ih.cons a)

theorem pairwise_insertByTs (a : PayloadChange) (l : List PayloadChange)
    (hp : l.Pairwise lexLE) (hid : ∀ b ∈ l, a.log_id < b.log_id) :
    (insertByTs a l).Pairwise lexLE := by
  induction l with
  | nil => simp [insertByTs, lexLE]
  | cons b l ih =>
      rw [List.pairwise_cons] at hp
      by_cases h : a.change_timestamp ≤ b.change_timestamp
      · simp only [insertByTs, if_pos h]
        rw [List.pairwise_cons]
        refine ⟨?_, List.pairwise_cons.mpr hp⟩
        intro x hx
        rcases List.mem_cons.mp hx with hx | hx
        · subst hx
          rcases Nat.lt_or_ge a.change_timestamp x.change_timestamp with hlt | hge
          · exact Or.inl hlt
          · exact Or.inr ⟨Nat.le_antisymm h hge, Nat.le_of_lt (hid x (List.mem_cons_self _ _))⟩
        · rcases hp.1 x hx with hbx | hbx
          · exact Or.inl (Nat.lt_of_le_of_lt h hbx)
          · rcases Nat.lt_or_ge a.change_timestamp x.change_timestamp with hlt | hge
            · exact Or.inl hlt
            · exact Or.inr ⟨Nat.le_antisymm (le_of_le_of_eq h hbx.1) hge,
                Nat.le_of_lt (hid x (List.mem_cons_of_mem _ hx))⟩
      · simp only [insertByTs, if_neg h]
        rw [List.pairwise_cons]
        constructor
        · intro x hx
          rcases List.mem_cons.mp ((insertByTs_perm a l).mem_iff.mp hx) with hx | hx
          · subst hx
            exact Or.inl (Nat.lt_of_not_le h)
          · exact hp.1 x hx
        · exact ih hp.2 (fun c hc => hid c (List.mem_cons_of_mem _ hc))

theorem pairwise_sortByTs (l : List PayloadChange)
    (hid : l.Pairwise (fun x y => x.log_id < y.log_id)) :
    (sortByTs l).Pairwise lexLE := by
  induction l with
  | nil => simp [sortByTs]
  | cons a l ih =>
      rw [List.pairwise_cons] at hid
      exact pairwise_insertByTs a (sortByTs l) (ih hid.2)
        (fun b hb => hid.1 b ((sortByTs_perm l).mem_iff.mp hb))

theorem selectUnprocessed_map_log_id (db : HRState) :
    List.Perm ((selectUnprocessed db).map (·.log_id))
      ((db.changeLog.filter (fun r => !r.processed)).map (·.id)) := by
  have h1 := (sortByTs_perm
      ((db.changeLog.filter (fun r => !r.processed)).map (joinRow db.employees))).map
      (fun p => p.log_id)
  rw [List.map_map] at h1
  exact h1

theorem unproc_after (db : HRState) :
    (markProcessed ((selectUnprocessed db).map (·.log_id)) db.changeLog).filter
      (fun r => !r.processed) = [] := by
  rw [List.filter_eq_nil_iff]
  intro a ha
  rcases List.mem_map.mp ha with ⟨r, hr, hf⟩
  by_cases hid : r.id ∈ (selectUnprocessed db).map (·.log_id)
  · rw [if_pos hid] at hf
    subst hf
    simp
  · rw [if_neg hid] at hf
    subst hf
    simp only [Bool.not_eq_true, Bool.not_eq_true']
    by_contra hproc
    apply hid
    rw [(selectUnprocessed_map_log_id db).mem_iff]
    exact List.mem_map.mpr ⟨r, List.mem_filter.mpr ⟨hr, by simp [hproc]⟩, rfl⟩

theorem create_sync_payload_empty (now : Nat) (db : HRState) (store : Option Payload)
    (h : selectUnprocessed db = []) :
    create_sync_payload now true db store = (.ok 0 none, db, store) := by
  unfold create_sync_payload
  rw [h]
  rfl

theorem create_sync_payload_nonempty (now : Nat) (db : HRState) (store : Option Payload)
    (h : (selectUnprocessed db).isEmpty = false) :
    create_sync_payload now true db store =
      (.ok (selectUnprocessed db).length (some (builtPayload now db).metadata.sync_id),
       HRState.mk db.employees
         (markProcessed ((selectUnprocessed db).map (·.log_id)) db.changeLog),
       some (builtPayload now db)) := by
  simp only [create_sync_payload, h]
  rfl

theorem selectUnprocessed_after_mark (db : HRState) :
    selectUnprocessed
      (HRState.mk db.employees
        (markProcessed ((selectUnprocessed db).map (·.log_id)) db.changeLog)) = [] := by
  show sortByTs
      (((markProcessed ((selectUnprocessed db).map (·.log_id)) db.changeLog).filter
        (fun r => !r.processed)).map (joinRow db.employees)) = []
  rw [unproc_after db]
  rfl

/-- C1: exactly-once hand-off. With a committing run (commitOk = true), every
extracted change event is flagged processed in the same call; when there are no
unprocessed events the call returns success with changes_processed = 0 and
leaves both the database and the payload store untouched; and a second call
right after any first call returns changes_processed = 0 and changes neither
the database nor the payload store. -/
theorem exactly_once_handoff (now1 now2 : Nat) (db : HRState) (store : Option Payload) :
    (db.changeLog.filter (fun r => !r.processed) = [] →
      create_sync_payload now1 true db store = (.ok 0 none, db, store))
    ∧ create_sync_payload now2 true (create_sync_payload now1 true db store).2.1
        (create_sync_payload now1 true db store).2.2
      = (.ok 0 none, (create_sync_payload now1 true db store).2.1,
         (create_sync_payload now1 true db store).2.2) := by
  constructor
  · intro h
    apply create_sync_payload_empty
    show sortByTs ((db.changeLog.filter (fun r => !r.processed)).map (joinRow db.employees)) = []
    rw [h]
    rfl
  · by_cases h : selectUnprocessed db = []
    · rw [create_sync_payload_empty now1 db store h]
      rw [create_sync_payload_empty now2 db store h]
    · have hne : (selectUnprocessed db).isEmpty = false := by
        cases hsel : selectUnprocessed db with
        | nil => exact absurd hsel h
        | cons c cs => rfl
      rw [create_sync_payload_nonempty now1 db store hne]
      exact create_sync_payload_empty now2 _ _ (selectUnprocessed_after_mark db)

/-- Sample state: empty database. -/
def dbE : HRState := { employees := [], changeLog := [] }

/-- Witness for C1 at the empty database: the zero-unprocessed case returns
success with changes_processed = 0 and no write, and the repeated call is also
a no-op. -/
theorem exactly_once_handoff_witness :
    create_sync_payload 1 true dbE none = (.ok 0 none, dbE, none)
    ∧ create_sync_payload 2 true (create_sync_payload 1 true dbE none).2.1
        (create_sync_payload 1 true dbE none).2.2
      = (.ok 0 none, (create_sync_payload 1 true dbE none).2.1,
         (create_sync_payload 1 true dbE none).2.2) :=
  ⟨(exactly_once_handoff 1 2 dbE none).1 rfl, (exactly_once_handoff 1 2 dbE none).2⟩

/-- C5: deterministic extraction order. The extractor selects exactly the
change events with processed = false (the selection is a permutation of the
filtered, joined change log), and - the table being scanned in id order with a
stable sort on change_timestamp - the resulting changes list is ordered by
change_timestamp ascending with ties broken by log_id ascending; the written
payload carries exactly that list, so two extractions from the same state
produce the changes in the same order. -/
theorem deterministic_extraction_order (db : HRState)
    (hid : db.changeLog.Pairwise (fun x y => x.id < y.id)) :
    List.Perm (selectUnprocessed db)
      ((db.changeLog.filter (fun r => !r.processed)).map (joinRow db.employees))
    ∧ (selectUnprocessed db).Pairwise lexLE
    ∧ ∀ now store, (selectUnprocessed db).isEmpty = false →
        (create_sync_payload now true db store).2.2 = some (builtPayload now db)
        ∧ (builtPayload now db).changes = selectUnprocessed db := by
  refine ⟨sortByTs_perm _, ?_, ?_⟩
  · apply pairwise_sortByTs
    rw [List.pairwise_map]
    exact hid.sublist (List.filter_sublist _)
  · intro now store h
    rw [create_sync_payload_nonempty now db store h]
    exact ⟨rfl, rfl⟩

/-- Sample state: two unprocessed change events with the same timestamp and
ids 1, 2, for an employee row that no longer exists. -/
def dbW : HRState :=
  { employees := []
    changeLog :=
      [{ id := 1, employee_id := "EMP009", change_type := "UPDATE", old_values := [],
         new_values := [], change_timestamp := 10, processed := false },
       { id := 2, employee_id := "EMP009", change_type := "UPDATE", old_values := [],
         new_values := [], change_timestamp := 10, processed := false }] }

/-- Witness for C5 on a two-event log with tied timestamps. -/
theorem deterministic_extraction_order_witness :
    List.Perm (selectUnprocessed dbW)
      ((dbW.changeLog.filter (fun r => !r.processed)).map (joinRow dbW.employees))
    ∧ (selectUnprocessed dbW).Pairwise lexLE
    ∧ (create_sync_payload 3 true dbW none).2.2 = some (builtPayload 3 dbW)
    ∧ (builtPayload 3 dbW).changes = selectUnprocessed dbW := by
  have h := deterministic_extraction_order dbW (by decide)
  exact ⟨h.1, h.2.1, h.2.2 3 none (by decide)⟩

/-- C10: detect_changes is read-only. It leaves the database (employees table,
change log, every processed flag) and the payload file unchanged, two
consecutive calls report the same changes list and changes_count, and the
reported list is exactly the unprocessed selection. -/
theorem detect_changes_read_only (t1 t2 : Nat) (db : HRState) (store : Option Payload) :
    (detect_changes t1 db store).2.1 = db
    ∧ (detect_changes t1 db store).2.2 = store
    ∧ (detect_changes t1 db store).1.changes = (detect_changes t2 db store).1.changes
    ∧ (detect_changes t1 db store).1.changes_count = (detect_changes t2 db store).1.changes_count
    ∧ (detect_changes t1 db store).1.changes = selectUnprocessed db :=
  ⟨rfl, rfl, rfl, rfl, rfl⟩

theorem applyChanges_ok_count (now : Nat) (cs : List PayloadChange) (k : Nat)
    (rows : List PayrollRow) (n : Nat) (rows' : List PayrollRow)
    (h : applyChanges now cs k rows = .ok (n, rows')) : n = k + cs.length := by
  induction cs generalizing k rows with
  | nil =>
      simp [applyChanges] at h
      simp [h.1]
  | cons c cs ih =>
      cases hc : applyChange now c rows with
      | error e => simp [applyChanges, hc, Bind.bind, Except.bind] at h
      | ok r2 =>
          simp [applyChanges, hc, Bind.bind, Except.bind] at h
          have := ih (k + 1) r2 h
          simp only [List.length_cons]
          omega

/-- C2 (amended): the applier has no per-change failure handling. When applying
one change raises (for example a malformed snapshot missing a required field),
the whole batch aborts: the tool returns an error, nothing is committed, so no
TargetRecord write takes effect, no SyncLogEntry at all is appended (in
particular no failed entry for the offending change), and the payload is not
annotated. Only when every change applies cleanly does the operation complete,
and then it appends exactly one SyncLogEntry per change, each with sync_status
completed, and reports processed_count equal to the number of changes. -/
theorem apply_batch_failure_aborts (now : Nat) (p : Payload) (st : PayrollState) :
    (∀ e, applyChanges now p.changes 0 st.payroll_employees = .error e →
        process_sync_payload now (some p) st = (.failed e, some p, st))
    ∧ (∀ n rows, applyChanges now p.changes 0 st.payroll_employees = .ok (n, rows) →
        process_sync_payload now (some p) st
          = (.completed n, some (annotatePayload now p),
             { payroll_employees := rows
               sync_log := st.sync_log ++ p.changes.map (syncEntry now) })
        ∧ n = p.changes.length)
    ∧ ∀ c, (syncEntry now c).sync_status = "completed" := by
  refine ⟨?_, ?_, fun c => rfl⟩
  · intro e h
    simp [process_sync_payload, h]
  · intro n rows h
    refine ⟨by simp [process_sync_payload, h], ?_⟩
    simpa using applyChanges_ok_count now p.changes 0 st.payroll_employees n rows h

/-- Malformed payload entry: an INSERT whose new_values snapshot is missing the
required first_name field. -/
def cBad : PayloadChange :=
  { log_id := 7, employee_id := "EMP100", change_type := "INSERT", old_values := [],
    new_values := [("last_name", .str "Lovelace")], change_timestamp := 4,
    current_employee_data := [] }

/-- A payload carrying only the malformed change. -/
def pBad : Payload :=
  { source_system := "hr_system", target_system := "payroll_system", sync_timestamp := 4,
    total_changes := 1, changes := [cBad],
    metadata := { generated_by := "HR Change Detection System", sync_id := "SYNC_4",
                  status := "ready_for_sync" } }

/-- Empty payroll database state. -/
def stP : PayrollState := { payroll_employees := [], sync_log := [] }

/-- C2 counterexample: on the malformed snapshot the applier does not record a
failed SyncLogEntry and continue - it aborts the whole call with an error, the
audit log stays empty (no entry for the attempted change), and the payload file
keeps its unannotated content. -/
theorem apply_batch_failure_counterexample :
    process_sync_payload 9 (some pBad) stP = (.failed "KeyError: first_name", some pBad, stP)
    ∧ (process_sync_payload 9 (some pBad) stP).2.2.sync_log = [] :=
  ⟨rfl, rfl⟩

/-- Witness for C2 (amended) at the malformed payload. -/
theorem apply_batch_failure_aborts_witness :
    process_sync_payload 9 (some pBad) stP = (.failed "KeyError: first_name", some pBad, stP) :=
  (apply_batch_failure_aborts 9 pBad stP).1 "KeyError: first_name" rfl

/-- Replace the status field of a payload metadata block. -/
def setStatus (s : String) (p : Payload) : Payload :=
  { p with metadata := { p.metadata with status := s } }

/-- C3 (amended): process_sync_payload never reads metadata.status, so a
payload whose status is already processed is re-applied in full: the outcome
and the whole payroll-database effect are identical to applying the same
payload under any other status, and a successful re-application returns
processed_count = total number of changes and appends one fresh SyncLogEntry
per change (instead of being a no-op returning 0). -/
theorem no_processed_guard (now : Nat) (p : Payload) (st : PayrollState) :
    ((process_sync_payload now (some (setStatus "processed" p)) st).1
        = (process_sync_payload now (some p) st).1
      ∧ (process_sync_payload now (some (setStatus "processed" p)) st).2.2
        = (process_sync_payload now (some p) st).2.2)
    ∧ (∀ n rows, applyChanges now p.changes 0 st.payroll_employees = .ok (n, rows) →
        (process_sync_payload now (some (setStatus "processed" p)) st).1
            = .completed p.changes.length
        ∧ (process_sync_payload now (some (setStatus "processed" p)) st).2.2.sync_log
            = st.sync_log ++ p.changes.map (syncEntry now)) := by
  have hch : (setStatus "processed" p).changes = p.changes := rfl
  constructor
  · cases h : applyChanges now p.changes 0 st.payroll_employees with
    | error e => exact ⟨by simp [process_sync_payload, setStatus, h], by simp [process_sync_payload, setStatus, h]⟩
    | ok r => exact ⟨by simp [process_sync_payload, setStatus, h], by simp [process_sync_payload, setStatus, h]⟩
  · intro n rows h
    have hn := applyChanges_ok_count now p.changes 0 st.payroll_employees n rows h
    constructor
    · simp [process_sync_payload, setStatus, h, hn]
    · simp [process_sync_payload, setStatus, h]

/-- Well-formed payload entry: an INSERT with a complete new_values snapshot. -/
def cIns : PayloadChange :=
  { log_id := 1, employee_id := "EMP100", change_type := "INSERT", old_values := [],
    new_values :=
      [("employee_id", .str "EMP100"), ("first_name", .str "Ada"),
       ("last_name", .str "Lovelace"), ("email", .str "ada@company.com"),
       ("department", .str "Engineering"), ("position", .str "Engineer"),
       ("salary", .int 90000), ("status", .str "active")],
    change_timestamp := 2, current_employee_data := [] }

/-- A ready payload carrying the single INSERT change. -/
def pReady : Payload :=
  { source_system := "hr_system", target_system := "payroll_system", sync_timestamp := 2,
    total_changes := 1, changes := [cIns],
    metadata := { generated_by := "HR Change Detection System", sync_id := "SYNC_2",
                  status := "ready_for_sync" } }

/-- The TargetRecord produced by applying cIns at time 9. -/
def adaRow : PayrollRow :=
  { employee_id := .str "EMP100", full_name := .str "Ada Lovelace",
    email := .str "ada@company.com", department := .str "Engineering",
    position := .str "Engineer", base_salary := .int 90000, pay_grade := .null,
    tax_status := .str "active", last_sync_timestamp := .int 9,
    created_at := .int 9, updated_at := .int 9 }

/-- C3 counterexample: applying a payload whose metadata.status is already
processed is not a no-op - it reports processed_count = 1 (not 0), writes the
TargetRecord, and appends a new audit row. -/
theorem no_processed_guard_counterexample :
    (process_sync_payload 9 (some (setStatus "processed" pReady)) stP).1 = .completed 1
    ∧ (process_sync_payload 9 (some (setStatus "processed" pReady)) stP).2.2.sync_log.length = 1
    ∧ (process_sync_payload 9 (some (setStatus "processed" pReady)) stP).2.2.payroll_employees.length
        = 1 :=
  ⟨rfl, rfl, rfl⟩

/-- Witness for C3 (amended) at the processed single-INSERT payload. -/
theorem no_processed_guard_witness :
    (process_sync_payload 9 (some (setStatus "processed" pReady)) stP).1
        = .completed pReady.changes.length
    ∧ (process_sync_payload 9 (some (setStatus "processed" pReady)) stP).2.2.sync_log
        = stP.sync_log ++ pReady.changes.map (syncEntry 9) :=
  (no_processed_guard 9 pReady stP).2 1 [adaRow] rfl

/-- C4 (amended): when the processed-flag UPDATE or its commit fails after the
payload file has been written, the two effects do not take effect together: the
flag update rolls back (the database is exactly as before the call) but the
payload store keeps the freshly written payload - the file write is outside
the transaction, so an error result leaves the payload store changed. -/
theorem extractor_commit_failure (now : Nat) (db : HRState) (store : Option Payload)
    (h : (selectUnprocessed db).isEmpty = false) :
    create_sync_payload now false db store
      = (.err "commit failed", db, some (builtPayload now db)) := by
  simp only [create_sync_payload, h]
  rfl

/-- C4 counterexample: on the two-event database with an empty payload store, a
commit failure returns an error and leaves every processed flag untouched, yet
the payload store now holds a payload - the write and the flag-set did not
take effect or roll back as one unit. -/
theorem extractor_commit_failure_counterexample :
    (create_sync_payload 5 false dbW none).1 = .err "commit failed"
    ∧ (create_sync_payload 5 false dbW none).2.1 = dbW
    ∧ (create_sync_payload 5 false dbW none).2.2 ≠ none := by
  refine ⟨rfl, rfl, ?_⟩
  have h : (create_sync_payload 5 false dbW none).2.2 = some (builtPayload 5 dbW) := rfl
  rw [h]
  simp

/-- Witness for C4 (amended) on the two-event database. -/
theorem extractor_commit_failure_witness :
    create_sync_payload 5 false dbW none
      = (.err "commit failed", dbW, some (builtPayload 5 dbW)) :=
  extractor_commit_failure 5 dbW none (by decide)

/-- The TargetRecord row built by the INSERT branch of the applier. -/
def targetRow (now : Nat) (eid first last email department position salary status : Val) :
    PayrollRow :=
  { employee_id := eid
    full_name := .str (valToString first ++ " " ++ valToString last)
    email := email
    department := department
    position := position
    base_salary := salary
    pay_grade := .null
    tax_status := status
    last_sync_timestamp := .int now
    created_at := .int now
    updated_at := .int now }

/-- C6 (amended): only INSERT changes are upserts. An INSERT change replaces or
creates the TargetRecord keyed by new_values.employee_id (INSERT OR REPLACE),
concatenating first and last name into full_name and stamping
last_sync_timestamp with the apply time. An UPDATE change uses a plain SQL
UPDATE keyed by the change entity_id: when the new email does not collide with
another row (the UNIQUE constraint holds) it rewrites any existing matching row
with the same field mapping; when the new email would duplicate another row's
email it aborts with a UNIQUE-constraint error instead of writing; and when no
TargetRecord with that entity_id exists it modifies nothing - it does not
create the record. -/
theorem upsert_semantics (now : Nat) (c : PayloadChange) (rows : List PayrollRow)
    (first last email department position salary status : Val)
    (h1 : dictGet c.new_values "first_name" = some first)
    (h2 : dictGet c.new_values "last_name" = some last)
    (h4 : dictGet c.new_values "email" = some email)
    (h5 : dictGet c.new_values "department" = some department)
    (h6 : dictGet c.new_values "position" = some position)
    (h7 : dictGet c.new_values "salary" = some salary)
    (h8 : dictGet c.new_values "status" = some status)
    (hmail : email ≠ Val.null) :
    (∀ eid, c.change_type = "INSERT" → dictGet c.new_values "employee_id" = some eid →
        applyChange now c rows
          = .ok (insertOrReplace rows
              (targetRow now eid first last email department position salary status)))
    ∧ (c.change_type = "UPDATE" →
        (emailConflict c.employee_id email rows = false →
          applyChange now c rows
            = .ok (rows.map (updateApply now c.employee_id
                (valToString first ++ " " ++ valToString last)
                email department position salary status)))
        ∧ (emailConflict c.employee_id email rows = true →
          applyChange now c rows
            = .error "UNIQUE constraint failed: payroll_employees.email")
        ∧ ((∀ r ∈ rows, sqlEq r.employee_id (.str c.employee_id) = false) →
            applyChange now c rows = .ok rows)) := by
  have hm : (email == Val.null) = false := by
    simp [hmail]
  constructor
  · intro eid hI h3
    simp [applyChange, hI, getKey, h1, h2, h3, h4, h5, h6, h7, h8, hm,
      Bind.bind, Except.bind, targetRow]
  · intro hU
    have hmap : emailConflict c.employee_id email rows = false →
        applyChange now c rows
          = .ok (rows.map (updateApply now c.employee_id
              (valToString first ++ " " ++ valToString last)
              email department position salary status)) := by
      intro hconf
      simp [applyChange, hU, getKey, h1, h2, h4, h5, h6, h7, h8, hm, hconf,
        Bind.bind, Except.bind]
    refine ⟨hmap, ?_, ?_⟩
    · intro hconf
      simp [applyChange, hU, getKey, h1, h2, h4, h5, h6, h7, h8, hm, hconf,
        Bind.bind, Except.bind]
    · intro hnone
      have hany : rows.any (fun r => sqlEq r.employee_id (.str c.employee_id)) = false := by
        rw [List.any_eq_false]
        intro r hr
        simp [hnone r hr]
      have hconf : emailConflict c.employee_id email rows = false := by
        simp [emailConflict, hany]
      rw [hmap hconf]
      have hid : rows.map (updateApply now c.employee_id
          (valToString first ++ " " ++ valToString last)
          email department position salary status) = rows.map id :=
        List.map_congr_left (fun r hr => by simp [updateApply, hnone r hr])
      rw [hid, List.map_id]

/-- Payload entry: an UPDATE change, with a complete snapshot, for an entity
that has no TargetRecord. -/
def cUpd : PayloadChange :=
  { log_id := 2, employee_id := "EMP200", change_type := "UPDATE", old_values := [],
    new_values :=
      [("first_name", .str "Grace"), ("last_name", .str "Hopper"),
       ("email", .str "grace@company.com"), ("department", .str "Engineering"),
       ("position", .str "Admiral"), ("salary", .int 120000), ("status", .str "active")],
    change_timestamp := 3, current_employee_data := [] }

/-- A payload carrying the single UPDATE change for the absent entity. -/
def pUpd : Payload :=
  { source_system := "hr_system", target_system := "payroll_system", sync_timestamp := 3,
    total_changes := 1, changes := [cUpd],
    metadata := { generated_by := "HR Change Detection System", sync_id := "SYNC_3",
                  status := "ready_for_sync" } }

/-- C6 counterexample: applying an UPDATE change for entity EMP200 against an
empty target store creates no TargetRecord - the batch completes and the store
is still empty, refuting the claim that UPDATE upserts. -/
theorem upsert_semantics_counterexample :
    applyChange 9 cUpd [] = .ok []
    ∧ process_sync_payload 9 (some pUpd) stP
        = (.completed 1, some (annotatePayload 9 pUpd),
           { payroll_employees := [], sync_log := [syncEntry 9 cUpd] }) :=
  ⟨rfl, rfl⟩

/-- An existing TargetRecord for EMP201 that already holds the email the cUpd
change carries. -/
def rowGrace : PayrollRow :=
  { employee_id := .str "EMP201", full_name := .str "Grace Prior",
    email := .str "grace@company.com", department := .null, position := .null,
    base_salary := .null, pay_grade := .null, tax_status := .str "active",
    last_sync_timestamp := .null, created_at := .int 0, updated_at := .int 0 }

/-- An existing TargetRecord for EMP200 with a distinct email. -/
def rowE200 : PayrollRow :=
  { employee_id := .str "EMP200", full_name := .str "G Hopper",
    email := .str "gh@company.com", department := .null, position := .null,
    base_salary := .null, pay_grade := .null, tax_status := .str "active",
    last_sync_timestamp := .null, created_at := .int 0, updated_at := .int 0 }

/-- Witness for C6 (amended): the INSERT change creates the mapped record, the
UPDATE change for an absent entity leaves the store unchanged, and the UPDATE
change whose new email duplicates another row's email aborts with the
UNIQUE-constraint error. -/
theorem upsert_semantics_witness :
    applyChange 9 cIns []
      = .ok (insertOrReplace []
          (targetRow 9 (.str "EMP100") (.str "Ada") (.str "Lovelace")
            (.str "ada@company.com") (.str "Engineering") (.str "Engineer")
            (.int 90000) (.str "active")))
    ∧ applyChange 9 cUpd [] = .ok []
    ∧ applyChange 9 cUpd [rowGrace, rowE200]
        = .error "UNIQUE constraint failed: payroll_employees.email" :=
  ⟨(upsert_semantics 9 cIns [] (.str "Ada") (.str "Lovelace") (.str "ada@company.com")
      (.str "Engineering") (.str "Engineer") (.int 90000) (.str "active")
      rfl rfl rfl rfl rfl rfl rfl (by simp)).1 (.str "EMP100") rfl rfl,
   (((upsert_semantics 9 cUpd [] (.str "Grace") (.str "Hopper") (.str "grace@company.com")
      (.str "Engineering") (.str "Admiral") (.int 120000) (.str "active")
      rfl rfl rfl rfl rfl rfl rfl (by simp)).2 rfl).2.2 (by simp)),
   (((upsert_semantics 9 cUpd [rowGrace, rowE200] (.str "Grace") (.str "Hopper")
      (.str "grace@company.com") (.str "Engineering") (.str "Admiral") (.int 120000)
      (.str "active") rfl rfl rfl rfl rfl rfl rfl (by simp)).2 rfl).2.1 (by decide))⟩

/-- C8: soft delete. Applying a DELETE change maps every TargetRecord row
through deleteApply: no row is ever removed (the length is preserved and each
row is either untouched or only has tax_status set to inactive and
last_sync_timestamp refreshed), and every row whose entity_id differs from the
change entity_id is completely unchanged. -/
theorem soft_delete_preserves_rows (now : Nat) (c : PayloadChange) (rows : List PayrollRow)
    (h : c.change_type = "DELETE") :
    applyChange now c rows = .ok (rows.map (deleteApply now c.employee_id))
    ∧ (rows.map (deleteApply now c.employee_id)).length = rows.length
    ∧ (∀ r, deleteApply now c.employee_id r = r
        ∨ deleteApply now c.employee_id r
            = { r with tax_status := .str "inactive", last_sync_timestamp := .int now })
    ∧ (∀ r, sqlEq r.employee_id (.str c.employee_id) = false →
        deleteApply now c.employee_id r = r) := by
  refine ⟨?_, List.length_map _ _, ?_, ?_⟩
  · simp [applyChange, h]
  · intro r
    by_cases hr : sqlEq r.employee_id (.str c.employee_id)
    · exact Or.inr (by simp [deleteApply, hr])
    · exact Or.inl (by simp [deleteApply, hr])
  · intro r hr
    simp [deleteApply, hr]

/-- An existing TargetRecord for EMP001. -/
def rowP1 : PayrollRow :=
  { employee_id := .str "EMP001", full_name := .str "John Doe",
    email := .str "john.doe@company.com", department := .str "Engineering",
    position := .str "Senior Developer", base_salary := .int 95000,
    pay_grade := .str "L5", tax_status := .str "active",
    last_sync_timestamp := .null, created_at := .int 0, updated_at := .int 0 }

/-- Payload entry: a DELETE change for EMP001. -/
def cDel : PayloadChange :=
  { log_id := 3, employee_id := "EMP001", change_type := "DELETE", old_values := [],
    new_values := [], change_timestamp := 6, current_employee_data := [] }

/-- Witness for C8 on a one-row target store. -/
theorem soft_delete_preserves_rows_witness :
    applyChange 9 cDel [rowP1] = .ok ([rowP1].map (deleteApply 9 cDel.employee_id))
    ∧ ([rowP1].map (deleteApply 9 cDel.employee_id)).length = [rowP1].length
    ∧ (deleteApply 9 cDel.employee_id rowP1 = rowP1
        ∨ deleteApply 9 cDel.employee_id rowP1
            = { rowP1 with tax_status := .str "inactive", last_sync_timestamp := .int 9 }) :=
  ⟨(soft_delete_preserves_rows 9 cDel [rowP1] rfl).1,
   (soft_delete_preserves_rows 9 cDel [rowP1] rfl).2.1,
   (soft_delete_preserves_rows 9 cDel [rowP1] rfl).2.2.1 rowP1⟩

/-- C9: a change whose change_type is none of INSERT, UPDATE, DELETE falls
through the if/elif chain of the applier: it writes nothing to any
TargetRecord, yet the loop counter still counts it and the audit loop appends a
SyncLogEntry for it with sync_status completed - indistinguishable from a
successfully applied change. On a single-change payload of this kind the tool
reports processed_count = 1, leaves payroll_employees unchanged, and appends
exactly that completed audit row. -/
theorem unknown_change_type_counted (now : Nat) (c : PayloadChange) (st : PayrollState)
    (p : Payload)
    (hI : c.change_type ≠ "INSERT") (hU : c.change_type ≠ "UPDATE")
    (hD : c.change_type ≠ "DELETE") :
    (∀ rows, applyChange now c rows = .ok rows)
    ∧ (syncEntry now c).sync_status = "completed"
    ∧ (p.changes = [c] →
        process_sync_payload now (some p) st
          = (.completed 1, some (annotatePayload now p),
             { payroll_employees := st.payroll_employees
               sync_log := st.sync_log ++ [syncEntry now c] })) := by
  have happ : ∀ rows, applyChange now c rows = .ok rows := by
    intro rows
    simp [applyChange, hI, hU, hD]
  refine ⟨happ, rfl, ?_⟩
  intro hp
  have h2 : applyChanges now [c] 0 st.payroll_employees
      = .ok (1, st.payroll_employees) := by
    simp [applyChanges, happ, Bind.bind, Except.bind]
  simp [process_sync_payload, hp, h2]

/-- Payload entry with an unrecognized change_type. -/
def cOdd : PayloadChange :=
  { log_id := 4, employee_id := "EMP300", change_type := "MERGE", old_values := [],
    new_values := [], change_timestamp := 8, current_employee_data := [] }

/-- A payload carrying the single unrecognized change. -/
def pOdd : Payload :=
  { source_system := "hr_system", target_system := "payroll_system", sync_timestamp := 8,
    total_changes := 1, changes := [cOdd],
    metadata := { generated_by := "HR Change Detection System", sync_id := "SYNC_8",
                  status := "ready_for_sync" } }

/-- Witness for C9 at the MERGE change. -/
theorem unknown_change_type_counted_witness :
    applyChange 9 cOdd [rowP1] = .ok [rowP1]
    ∧ (syncEntry 9 cOdd).sync_status = "completed"
    ∧ process_sync_payload 9 (some pOdd) stP
        = (.completed 1, some (annotatePayload 9 pOdd),
           { payroll_employees := stP.payroll_employees
             sync_log := stP.sync_log ++ [syncEntry 9 cOdd] }) := by
  have h := unknown_change_type_counted 9 cOdd stP pOdd
    (by decide) (by decide) (by decide)
  exact ⟨h.1 [rowP1], h.2.1, h.2.2 rfl⟩

theorem or3_eq_true (a b : Option Bool) :
    or3 a b = some true ↔ a = some true ∨ b = some true := by
  cases a with
  | none =>
      cases b with
      | none => simp [or3]
      | some bb => cases bb <;> simp [or3]
  | some ab =>
      cases ab with
      | false =>
          cases b with
          | none => simp [or3]
          | some bb => cases bb <;> simp [or3]
      | true =>
          cases b with
          | none => simp [or3]
          | some bb => cases bb <;> simp [or3]

theorem neqS_eq_true (a b : String) : neqS a b = some true ↔ a ≠ b := by
  simp [neqS]

theorem neq3_eq_true {α : Type} [DecidableEq α] (a b : Option α) :
    neq3 a b = some true ↔ bothSomeNe a b := by
  cases a <;> cases b <;> simp [neq3, bothSomeNe]

/-- C7 (amended): the UPDATE trigger fires exactly when its WHEN clause is true
under SQL three-valued logic, which - the comparisons being SQL `!=` - holds if
and only if some tracked attribute has both its old and its new value non-NULL
and different. An update of one row appends one change event when the clause is
true and none otherwise; in particular a mutation that changes a tracked
attribute from NULL to a value (or to NULL) produces no change event, so the
event count equals the number of mutations whose WHEN clause is true, not the
number of mutations that changed a tracked attribute. -/
theorem trigger_fires_iff (now : Nat) (o n : EmployeeRow) (db : HRState) :
    ((update_employee now o n db).changeLog
      = (if whenClause o n = some true then
          db.changeLog ++
            [{ id := nextLogId db.changeLog
               employee_id := n.employee_id
               change_type := "UPDATE"
               old_values := snapshotDict o
               new_values := snapshotDict n
               change_timestamp := now
               processed := false }]
         else db.changeLog))
    ∧ ((update_employee now o n db).changeLog.length
        = db.changeLog.length + (if whenClause o n = some true then 1 else 0))
    ∧ (whenClause o n = some true ↔
        o.first_name ≠ n.first_name ∨ o.last_name ≠ n.last_name ∨ o.email ≠ n.email
        ∨ bothSomeNe o.department n.department ∨ bothSomeNe o.position n.position
        ∨ bothSomeNe o.salary n.salary ∨ bothSomeNe o.status n.status) := by
  refine ⟨rfl, ?_, ?_⟩
  · by_cases h : whenClause o n = some true
    · simp [update_employee, h]
    · simp [update_employee, h]
  · simp [whenClause, or3_eq_true, neqS_eq_true, neq3_eq_true, or_assoc]

/-- Source row whose department is NULL. -/
def empOld : EmployeeRow :=
  { employee_id := "EMP010", first_name := "Eva", last_name := "Green",
    email := "eva@company.com", department := none, position := some "Analyst",
    salary := some 50000, status := some "active" }

/-- The same row after setting the department, every other attribute equal. -/
def empNew : EmployeeRow :=
  { empOld with department := some "Engineering" }

/-- C7 counterexample: updating EMP010 from department NULL to Engineering
changes a tracked attribute, yet the trigger WHEN clause evaluates to NULL
under three-valued logic, so no change event is recorded - refuting the
claimed if-and-only-if. -/
theorem trigger_fires_iff_counterexample :
    (update_employee 4 empOld empNew dbE).changeLog = dbE.changeLog
    ∧ empOld.department ≠ empNew.department
    ∧ whenClause empOld empNew = none := by
  refine ⟨?_, by decide, by decide⟩
  have h : whenClause empOld empNew = none := by decide
  simp [update_employee, h]
